import Mathlib

/-!
Verification of the posture-analysis core of the angle-aware repository
(src/src/components/PostureDetector.tsx).

The JavaScript number arithmetic of the source is embedded over the exact
real numbers, extended with the IEEE special values that the source can
actually produce: the tilt ratios divide by a width that may be zero, so
positive infinity and NaN arise and flow through the score pipeline.
The type JSVal below captures exactly the values reachable in that
pipeline, and the operations jdiv, jmul, jsub, jminC, jmaxC, jgt, jround
mirror the JavaScript semantics of division, multiplication, subtraction,
Math.min, Math.max, the greater-than comparison and Math.round on those
values (comparisons with NaN are false; Math.min and Math.max return NaN
when an argument is NaN; Math.round is half-up, which is the Mathlib
round function).
-/

noncomputable section

open Real

/-- Two-argument arctangent following the JavaScript Math.atan2 convention
with the y argument first: the result lies in the interval from negative pi
(exclusive) to pi (inclusive), and both arguments zero gives 0, matching
atan2 on positive zeros.  Real numbers have no signed zero, which is the one
idealisation made here. -/
def atan2 (y x : ℝ) : ℝ :=
  if 0 < x then Real.arctan (y / x)
  else if x < 0 then
    (if 0 ≤ y then Real.arctan (y / x) + Real.pi else Real.arctan (y / x) - Real.pi)
  else
    (if 0 < y then Real.pi / 2 else if y < 0 then -(Real.pi / 2) else 0)

/-- A 2D point, as the coordinate pairs passed to calculateAngle. -/
structure Pt where
  x : ℝ
  y : ℝ

/-- Embedding of the source function calculateAngle: the absolute difference
of the polar angles of the two rays from point2, converted to degrees, and
reflected as 360 minus the value when above 180. -/
def calculateAngle (point1 point2 point3 : Pt) : ℝ :=
  let radians := atan2 (point3.y - point2.y) (point3.x - point2.x) -
    atan2 (point1.y - point2.y) (point1.x - point2.x)
  let angle := |radians * 180 / Real.pi|
  if 180 < angle then 360 - angle else angle

/-- The value space of a JavaScript number as reachable in the posture
score pipeline: a finite value (idealised as an exact real), positive
infinity, negative infinity, or NaN. -/
inductive JSVal where
  | fin : ℝ → JSVal
  | inf : JSVal
  | ninf : JSVal
  | nan : JSVal

/-- JavaScript division of two finite numbers: ordinary division for a
nonzero divisor; a zero divisor gives positive or negative infinity by the
sign of the dividend, and NaN when the dividend is zero as well. -/
def jdiv (a b : ℝ) : JSVal :=
  if b = 0 then (if 0 < a then .inf else if a < 0 then .ninf else .nan)
  else .fin (a / b)

/-- JavaScript multiplication of a number by a finite constant. -/
def jmul (v : JSVal) (c : ℝ) : JSVal :=
  match v with
  | .fin a => .fin (a * c)
  | .inf => if 0 < c then .inf else if c < 0 then .ninf else .nan
  | .ninf => if 0 < c then .ninf else if c < 0 then .inf else .nan
  | .nan => .nan

/-- JavaScript subtraction on the extended number values. -/
def jsub (v w : JSVal) : JSVal :=
  match v, w with
  | .fin a, .fin b => .fin (a - b)
  | .fin _, .inf => .ninf
  | .fin _, .ninf => .inf
  | .inf, .fin _ => .inf
  | .inf, .inf => .nan
  | .inf, .ninf => .inf
  | .ninf, .fin _ => .ninf
  | .ninf, .inf => .ninf
  | .ninf, .ninf => .nan
  | .nan, _ => .nan
  | _, .nan => .nan

/-- JavaScript Math.min of a finite constant and a number (NaN absorbs). -/
def jminC (c : ℝ) : JSVal → JSVal
  | .fin a => .fin (min c a)
  | .inf => .fin c
  | .ninf => .ninf
  | .nan => .nan

/-- JavaScript Math.max of a finite constant and a number (NaN absorbs). -/
def jmaxC (c : ℝ) : JSVal → JSVal
  | .fin a => .fin (max c a)
  | .inf => .inf
  | .ninf => .fin c
  | .nan => .nan

/-- The JavaScript comparison v greater-than c for a finite constant c:
false on NaN, true on positive infinity. -/
def jgt : JSVal → ℝ → Prop
  | .fin a, c => c < a
  | .inf, _ => True
  | .ninf, _ => False
  | .nan, _ => False

instance : (v : JSVal) → (c : ℝ) → Decidable (jgt v c)
  | .fin a, c => inferInstanceAs (Decidable (c < a))
  | .inf, _ => inferInstanceAs (Decidable True)
  | .ninf, _ => inferInstanceAs (Decidable False)
  | .nan, _ => inferInstanceAs (Decidable False)

/-- JavaScript Math.round: half-up rounding on finite values, identity on
infinities, NaN on NaN.  Mathlib round is the same half-up rounding. -/
def jround : JSVal → JSVal
  | .fin a => .fin ((round a : ℤ) : ℝ)
  | .inf => .inf
  | .ninf => .ninf
  | .nan => .nan

/-- A keypoint as consumed by analyzePosture: a landmark name, pixel
coordinates, and an optional confidence (the score field of the
pose-detection Keypoint type, which may be absent). -/
structure Keypoint where
  name : String
  x : ℝ
  y : ℝ
  score : Option ℝ

/-- The color field of the PostureStatus record of the source.  The spec
severity vocabulary maps success to OK, warning to WARNING and destructive
to CRITICAL. -/
inductive Color where
  | success : Color
  | warning : Color
  | destructive : Color
deriving DecidableEq

/-- The PostureStatus record returned by analyzePosture. -/
structure PostureStatus where
  score : JSVal
  message : String
  color : Color

/-- The minimum confidence gate of the source (the minConfidence local). -/
def minConfidence : ℝ := 0.3

/-- The source expression kp.score! less-than minConfidence: when the
confidence is absent the JavaScript comparison undefined less-than 0.3
evaluates to false, so an absent confidence does NOT fail the gate. -/
def confBelow : Option ℝ → Prop
  | some c => c < minConfidence
  | none => False

instance : (c : Option ℝ) → Decidable (confBelow c)
  | some c => inferInstanceAs (Decidable (c < minConfidence))
  | none => inferInstanceAs (Decidable False)

/-- The source lookup keypoints.find(kp such that kp.name equals n): the
first entry of the sequence whose name matches. -/
def findKp (kps : List Keypoint) (n : String) : Option Keypoint :=
  kps.find? (fun kp => kp.name == n)

/-- The tilt feature of the source: the vertical difference of the pair
divided by its horizontal width, times 100.  Applied to the shoulder pair
and, with the identical formula, to the hip pair. -/
def tiltOf (l r : Keypoint) : JSVal :=
  jmul (jdiv |l.y - r.y| |l.x - r.x|) 100

/-- The spine alignment feature of the source: the unsigned deviation, in
degrees, of the shoulder-midpoint-to-hip-midpoint direction from the
vertical 90-degree reference. -/
def spineAngleOf (ls rs lh rh : Keypoint) : ℝ :=
  let shoulderCenter : Pt := ⟨(ls.x + rs.x) / 2, (ls.y + rs.y) / 2⟩
  let hipCenter : Pt := ⟨(lh.x + rh.x) / 2, (lh.y + rh.y) / 2⟩
  abs (90 - abs (atan2 (hipCenter.y - shoulderCenter.y) (hipCenter.x - shoulderCenter.x) * 180 / Real.pi))

/-- The raw score of the source before clamping: 100 minus twice each tilt
minus half the spine angle, subtracted in the order of the source. -/
def rawScore (t1 t2 : JSVal) (a : ℝ) : JSVal :=
  jsub (jsub (jsub (JSVal.fin 100) (jmul t1 2)) (jmul t2 2)) (JSVal.fin (a * 0.5))

/-- The clamp of the source: Math.max(0, Math.min(100, score)). -/
def clampScore (v : JSVal) : JSVal := jmaxC 0 (jminC 100 v)

/-- The clamped score computed by the source from the two tilts and the
spine angle. -/
def scoreOf (t1 t2 : JSVal) (a : ℝ) : JSVal := clampScore (rawScore t1 t2 a)

/-- The finite-value score aggregation: the value scoreOf takes when both
tilts are finite. -/
def scoreAgg (s h a : ℝ) : ℝ := max 0 (min 100 (100 - s * 2 - h * 2 - a * 0.5))

/-- The feedback block of the source: ordered first-match threshold rules
on the shoulder tilt, the hip tilt and the clamped score. -/
def classify (t1 t2 sc : JSVal) : PostureStatus :=
  if jgt t1 15 then ⟨jround sc, "Straighten your shoulders", Color.destructive⟩
  else if jgt t2 15 then ⟨jround sc, "Adjust your sitting posture", Color.warning⟩
  else if jgt sc 80 then ⟨jround sc, "Good posture detected!", Color.success⟩
  else if jgt sc 60 then ⟨jround sc, "Minor adjustments needed", Color.warning⟩
  else ⟨jround sc, "Poor posture - sit up straight", Color.destructive⟩

/-- The geometric part of analyzePosture, reached once the four landmarks
are found and pass the confidence gate. -/
def analyzeValidated (ls rs lh rh : Keypoint) : PostureStatus :=
  classify (tiltOf ls rs) (tiltOf lh rh)
    (scoreOf (tiltOf ls rs) (tiltOf lh rh) (spineAngleOf ls rs lh rh))

/-- Embedding of the source function analyzePosture: resolve the four
required landmarks (first match by name), return the missing-landmarks
result if any is absent, the low-confidence result if any resolved
confidence fails the gate, and otherwise compute tilts, spine angle,
clamped score and the threshold classification. -/
def analyzePosture (keypoints : List Keypoint) : PostureStatus :=
  match findKp keypoints "left_shoulder", findKp keypoints "right_shoulder",
        findKp keypoints "left_hip", findKp keypoints "right_hip" with
  | some ls, some rs, some lh, some rh =>
    if confBelow ls.score ∨ confBelow rs.score ∨ confBelow lh.score ∨ confBelow rh.score then
      ⟨JSVal.fin 0, "Move closer or improve lighting", Color.warning⟩
    else analyzeValidated ls rs lh rh
  | _, _, _, _ => ⟨JSVal.fin 0, "Position yourself in frame", Color.warning⟩

/-- The property that a score value is an integer in the range 0 to 100. -/
def scoreInRange (v : JSVal) : Prop :=
  ∃ n : ℤ, v = JSVal.fin (n : ℝ) ∧ 0 ≤ n ∧ n ≤ 100

/-- Modelled from the spec wording of section 4.3: the tilt formula,
written independently of the source for the refinement claim C5. -/
def specTilt (l r : Keypoint) : ℝ := |l.y - r.y| / |l.x - r.x| * 100

/-- Modelled from the spec wording of section 4.3: the spine angle formula,
written independently of the source for the refinement claim C5. -/
def specSpineAngle (ls rs lh rh : Keypoint) : ℝ :=
  abs (90 - abs (atan2 ((lh.y + rh.y) / 2 - (ls.y + rs.y) / 2)
      ((lh.x + rh.x) / 2 - (ls.x + rs.x) / 2) * 180 / Real.pi))

/-- Modelled from the spec wording of section 4.4: clamp(v, lo, hi). -/
def specClamp (v lo hi : ℝ) : ℝ := max lo (min hi v)

/-- Modelled from the spec wording of section 4.4: the aggregate score
before rounding, clamp(100 minus shoulderTilt times 2 minus hipTilt times 2
minus spineAngle times 0.5, 0, 100). -/
def specScoreVal (ls rs lh rh : Keypoint) : ℝ :=
  specClamp (100 - specTilt ls rs * 2 - specTilt lh rh * 2 -
    specSpineAngle ls rs lh rh * 0.5) 0 100

/-! Helper lemmas about the embedding. -/

lemma findKp_nil (n : String) : findKp [] n = none := rfl

lemma findKp_cons (kp : Keypoint) (l : List Keypoint) (n : String) :
    findKp (kp :: l) n = if kp.name = n then some kp else findKp l n := by
  by_cases h : kp.name = n
  · rw [if_pos h]
    exact List.find?_cons_of_pos _ (by simp [h])
  · rw [if_neg h]
    exact List.find?_cons_of_neg _ (by simp [h])

lemma analyzePosture_validated_eq (kps : List Keypoint) (ls rs lh rh : Keypoint)
    (h1 : findKp kps "left_shoulder" = some ls) (h2 : findKp kps "right_shoulder" = some rs)
    (h3 : findKp kps "left_hip" = some lh) (h4 : findKp kps "right_hip" = some rh)
    (hc : ¬(confBelow ls.score ∨ confBelow rs.score ∨ confBelow lh.score ∨ confBelow rh.score)) :
    analyzePosture kps = analyzeValidated ls rs lh rh := by
  unfold analyzePosture
  rw [h1, h2, h3, h4]
  simp [hc]

lemma analyzePosture_lowconf_eq (kps : List Keypoint) (ls rs lh rh : Keypoint)
    (h1 : findKp kps "left_shoulder" = some ls) (h2 : findKp kps "right_shoulder" = some rs)
    (h3 : findKp kps "left_hip" = some lh) (h4 : findKp kps "right_hip" = some rh)
    (hc : confBelow ls.score ∨ confBelow rs.score ∨ confBelow lh.score ∨ confBelow rh.score) :
    analyzePosture kps = ⟨JSVal.fin 0, "Move closer or improve lighting", Color.warning⟩ := by
  unfold analyzePosture
  rw [h1, h2, h3, h4]
  simp [hc]

lemma analyzePosture_missing_eq (kps : List Keypoint)
    (h : findKp kps "left_shoulder" = none ∨ findKp kps "right_shoulder" = none ∨
      findKp kps "left_hip" = none ∨ findKp kps "right_hip" = none) :
    analyzePosture kps = ⟨JSVal.fin 0, "Position yourself in frame", Color.warning⟩ := by
  rcases e1 : findKp kps "left_shoulder" with _ | ls <;>
    rcases e2 : findKp kps "right_shoulder" with _ | rs <;>
    rcases e3 : findKp kps "left_hip" with _ | lh <;>
    rcases e4 : findKp kps "right_hip" with _ | rh <;>
    simp_all [analyzePosture]

lemma tiltOf_fin {l r : Keypoint} (h : l.x ≠ r.x) :
    tiltOf l r = JSVal.fin (|l.y - r.y| / |l.x - r.x| * 100) := by
  have hw : |l.x - r.x| ≠ 0 := by
    simpa [abs_eq_zero, sub_eq_zero] using h
  simp [tiltOf, jdiv, jmul, hw]

lemma tiltOf_inf {l r : Keypoint} (h : l.x = r.x) (h2 : l.y ≠ r.y) :
    tiltOf l r = JSVal.inf := by
  have hw : |l.x - r.x| = 0 := by simp [abs_eq_zero, sub_eq_zero, h]
  have hd : 0 < |l.y - r.y| := abs_pos.mpr (sub_ne_zero.mpr h2)
  norm_num [tiltOf, jdiv, jmul, hw, hd]

lemma tiltOf_nan {l r : Keypoint} (h : l.x = r.x) (h2 : l.y = r.y) :
    tiltOf l r = JSVal.nan := by
  have hw : |l.x - r.x| = 0 := by simp [abs_eq_zero, sub_eq_zero, h]
  have hd : |l.y - r.y| = 0 := by simp [abs_eq_zero, sub_eq_zero, h2]
  norm_num [tiltOf, jdiv, jmul, hw, hd]

lemma tiltOf_fin_nonneg {l r : Keypoint} :
    0 ≤ |l.y - r.y| / |l.x - r.x| * 100 := by positivity

lemma scoreOf_fin_fin (s h a : ℝ) :
    scoreOf (JSVal.fin s) (JSVal.fin h) a = JSVal.fin (scoreAgg s h a) := by
  simp [scoreOf, rawScore, clampScore, jsub, jmul, jminC, jmaxC, scoreAgg]

lemma scoreOf_inf_fin (h a : ℝ) : scoreOf JSVal.inf (JSVal.fin h) a = JSVal.fin 0 := by
  norm_num [scoreOf, rawScore, clampScore, jsub, jmul, jminC, jmaxC]

lemma scoreOf_fin_inf (s a : ℝ) : scoreOf (JSVal.fin s) JSVal.inf a = JSVal.fin 0 := by
  norm_num [scoreOf, rawScore, clampScore, jsub, jmul, jminC, jmaxC]

lemma scoreOf_inf_inf (a : ℝ) : scoreOf JSVal.inf JSVal.inf a = JSVal.fin 0 := by
  norm_num [scoreOf, rawScore, clampScore, jsub, jmul, jminC, jmaxC]

lemma scoreOf_nan_any (t2 : JSVal) (a : ℝ) : scoreOf JSVal.nan t2 a = JSVal.nan := by
  cases t2 <;> norm_num [scoreOf, rawScore, clampScore, jsub, jmul, jminC, jmaxC]

lemma scoreOf_any_nan (t1 : JSVal) (a : ℝ) : scoreOf t1 JSVal.nan a = JSVal.nan := by
  cases t1 <;> norm_num [scoreOf, rawScore, clampScore, jsub, jmul, jminC, jmaxC]

lemma classify_score_eq (t1 t2 sc : JSVal) : (classify t1 t2 sc).score = jround sc := by
  unfold classify
  split_ifs <;> rfl

lemma scoreAgg_mem (s h a : ℝ) : 0 ≤ scoreAgg s h a ∧ scoreAgg s h a ≤ 100 := by
  unfold scoreAgg
  constructor
  · exact le_max_left _ _
  · exact max_le (by norm_num) (min_le_left _ _)

lemma round_in_range {x : ℝ} (h0 : 0 ≤ x) (h1 : x ≤ 100) :
    0 ≤ round x ∧ round x ≤ 100 := by
  rw [round_eq]
  constructor
  · exact Int.le_floor.mpr (by push_cast; linarith)
  · have h2 : (⌊x + 1 / 2⌋ : ℤ) < 101 :=
      Int.floor_lt.mpr (by push_cast; linarith)
    omega

lemma atan2_pos_left {y : ℝ} (h : 0 < y) : atan2 y 0 = Real.pi / 2 := by
  simp [atan2, h]

lemma atan2_bounds (y x : ℝ) : -Real.pi < atan2 y x ∧ atan2 y x ≤ Real.pi := by
  have hpi := Real.pi_pos
  unfold atan2
  split_ifs with h1 h2 h3 h4 h5
  · have ha := Real.arctan_lt_pi_div_two (y / x)
    have hb := Real.neg_pi_div_two_lt_arctan (y / x)
    constructor <;> linarith
  · have hyx : y / x ≤ 0 := div_nonpos_iff.mpr (Or.inl ⟨h3, le_of_lt h2⟩)
    have ha : Real.arctan (y / x) ≤ 0 := by
      have := Real.arctan_strictMono.monotone hyx
      rwa [Real.arctan_zero] at this
    have hb := Real.neg_pi_div_two_lt_arctan (y / x)
    constructor <;> linarith
  · have hy : y < 0 := lt_of_not_le h3
    have hyx : 0 < y / x := div_pos_iff.mpr (Or.inr ⟨hy, h2⟩)
    have ha : 0 < Real.arctan (y / x) := by
      have := Real.arctan_strictMono hyx
      rwa [Real.arctan_zero] at this
    have hb := Real.arctan_lt_pi_div_two (y / x)
    constructor <;> linarith
  · constructor <;> linarith
  · constructor <;> linarith
  · constructor <;> linarith

lemma spineAngleOf_vertical (ls rs lh rh : Keypoint)
    (hx : lh.x + rh.x = ls.x + rs.x) (hy : ls.y + rs.y < lh.y + rh.y) :
    spineAngleOf ls rs lh rh = 0 := by
  unfold spineAngleOf
  have hdx : (lh.x + rh.x) / 2 - (ls.x + rs.x) / 2 = 0 := by rw [hx]; ring
  have hdy : 0 < (lh.y + rh.y) / 2 - (ls.y + rs.y) / 2 := by linarith
  dsimp only
  rw [hdx, atan2_pos_left hdy]
  rw [show Real.pi / 2 * 180 / Real.pi = 90 by
    field_simp
    ring]
  norm_num

lemma analyzeValidated_eval (ls rs lh rh : Keypoint)
    (hx1 : ls.x ≠ rs.x) (hx2 : lh.x ≠ rh.x) :
    analyzeValidated ls rs lh rh =
      classify (JSVal.fin (|ls.y - rs.y| / |ls.x - rs.x| * 100))
        (JSVal.fin (|lh.y - rh.y| / |lh.x - rh.x| * 100))
        (JSVal.fin (scoreAgg (|ls.y - rs.y| / |ls.x - rs.x| * 100)
          (|lh.y - rh.y| / |lh.x - rh.x| * 100) (spineAngleOf ls rs lh rh))) := by
  unfold analyzeValidated
  rw [tiltOf_fin hx1, tiltOf_fin hx2, scoreOf_fin_fin]

/-! Claim theorems. -/

/-- Claim C6: when any of the four required landmark names has no matching
entry, analyzePosture returns score 0, the message Position yourself in
frame and the warning severity, with no partial result; and the lookup of a
required name resolves to the first entry of the sequence whose name
matches, so duplicates are resolved by sequence order. -/
theorem missing_landmarks_and_first_match :
    (∀ kps : List Keypoint,
      (findKp kps "left_shoulder" = none ∨ findKp kps "right_shoulder" = none ∨
        findKp kps "left_hip" = none ∨ findKp kps "right_hip" = none) →
      analyzePosture kps = ⟨JSVal.fin 0, "Position yourself in frame", Color.warning⟩) ∧
    (∀ (kp : Keypoint) (l : List Keypoint) (n : String),
      findKp (kp :: l) n = if kp.name = n then some kp else findKp l n) :=
  ⟨analyzePosture_missing_eq, findKp_cons⟩

def dupFirst : Keypoint := ⟨"left_shoulder", 3, 4, some 0.8⟩

def dupSecond : Keypoint := ⟨"left_shoulder", 7, 8, some 0.2⟩

/-- Witness for claim C6: the empty keypoint list misses every landmark and
yields the fixed warning result, and a duplicated left-shoulder name
resolves to the first entry. -/
theorem missing_landmarks_and_first_match_witness :
    analyzePosture [] = ⟨JSVal.fin 0, "Position yourself in frame", Color.warning⟩ ∧
    findKp [dupFirst, dupSecond] "left_shoulder" = some dupFirst := by
  constructor
  · exact missing_landmarks_and_first_match.1 [] (Or.inl rfl)
  · rw [missing_landmarks_and_first_match.2 dupFirst [dupSecond] "left_shoulder"]
    simp [dupFirst]

/-- Claim C7: analyzePosture is a deterministic pure function of its
keypoint list argument: identical inputs yield identical results.  The
embedded function, like the source function, reads nothing but its argument
and literal constants, so the result is fully determined by the input. -/
theorem analyzePosture_deterministic (k1 k2 : List Keypoint) (h : k1 = k2) :
    analyzePosture k1 = analyzePosture k2 := by rw [h]

def determList : List Keypoint := [⟨"left_shoulder", 1, 2, some 0.5⟩]

/-- Witness for claim C7 at a concrete keypoint list. -/
theorem analyzePosture_deterministic_witness :
    analyzePosture determList = analyzePosture determList :=
  analyzePosture_deterministic determList determList rfl

/-- Claim C9: the score aggregation is monotonic: increasing any of the
three non-negative penalty features (the two tilts and the spine angle)
never increases the clamped aggregate score. -/
theorem scoreAgg_antitone (s1 s2 h1 h2 a1 a2 : ℝ)
    (hs0 : 0 ≤ s1) (hs : s1 ≤ s2) (hh0 : 0 ≤ h1) (hh : h1 ≤ h2)
    (ha0 : 0 ≤ a1) (ha : a1 ≤ a2) :
    scoreAgg s2 h2 a2 ≤ scoreAgg s1 h1 a1 := by
  unfold scoreAgg
  exact max_le_max le_rfl (min_le_min le_rfl (by linarith))

/-- Witness for claim C9 at concrete feature values, with both sides of the
inequality evaluated. -/
theorem scoreAgg_antitone_witness :
    scoreAgg 10 5 4 ≤ scoreAgg 2 1 0 ∧ scoreAgg 10 5 4 = 68 ∧ scoreAgg 2 1 0 = 94 :=
  ⟨scoreAgg_antitone 2 10 1 5 0 4 (by norm_num) (by norm_num) (by norm_num)
      (by norm_num) (by norm_num) (by norm_num),
    by norm_num [scoreAgg, min_def, max_def],
    by norm_num [scoreAgg, min_def, max_def]⟩

def noConfLS : Keypoint := ⟨"left_shoulder", 0, 0, none⟩

def noConfRS : Keypoint := ⟨"right_shoulder", 100, 0, some 0.9⟩

def noConfLH : Keypoint := ⟨"left_hip", 0, 100, some 0.9⟩

def noConfRH : Keypoint := ⟨"right_hip", 100, 100, some 0.9⟩

def noConfList : List Keypoint := [noConfLS, noConfRS, noConfLH, noConfRH]

/-- Claim C3 counterexample: all four landmarks are found and the left
shoulder has NO confidence value, yet the gate does not fail: the source
comparison is undefined less-than 0.3, which is false in JavaScript, so the
analysis proceeds to a full geometric result (here a perfect posture) and
does not return the low-confidence warning the claim requires. -/
theorem absent_confidence_passes_gate :
    analyzePosture noConfList = ⟨JSVal.fin 100, "Good posture detected!", Color.success⟩ ∧
    analyzePosture noConfList ≠ ⟨JSVal.fin 0, "Move closer or improve lighting", Color.warning⟩ := by
  have e1 : findKp noConfList "left_shoulder" = some noConfLS := by
    simp [noConfList, findKp_cons, findKp_nil, noConfLS, noConfRS, noConfLH, noConfRH]
  have e2 : findKp noConfList "right_shoulder" = some noConfRS := by
    simp [noConfList, findKp_cons, findKp_nil, noConfLS, noConfRS, noConfLH, noConfRH]
  have e3 : findKp noConfList "left_hip" = some noConfLH := by
    simp [noConfList, findKp_cons, findKp_nil, noConfLS, noConfRS, noConfLH, noConfRH]
  have e4 : findKp noConfList "right_hip" = some noConfRH := by
    simp [noConfList, findKp_cons, findKp_nil, noConfLS, noConfRS, noConfLH, noConfRH]
  have hc : ¬(confBelow noConfLS.score ∨ confBelow noConfRS.score ∨
      confBelow noConfLH.score ∨ confBelow noConfRH.score) := by
    norm_num [confBelow, minConfidence, noConfLS, noConfRS, noConfLH, noConfRH]
  have hres : analyzePosture noConfList = ⟨JSVal.fin 100, "Good posture detected!", Color.success⟩ := by
    rw [analyzePosture_validated_eq noConfList noConfLS noConfRS noConfLH noConfRH e1 e2 e3 e4 hc]
    rw [analyzeValidated_eval noConfLS noConfRS noConfLH noConfRH
      (by norm_num [noConfLS, noConfRS]) (by norm_num [noConfLH, noConfRH])]
    rw [spineAngleOf_vertical noConfLS noConfRS noConfLH noConfRH
      (by norm_num [noConfLS, noConfRS, noConfLH, noConfRH])
      (by norm_num [noConfLS, noConfRS, noConfLH, noConfRH])]
    norm_num [noConfLS, noConfRS, noConfLH, noConfRH, scoreAgg, min_def, max_def,
      classify, jgt, jround]
  exact ⟨hres, by rw [hres]; simp⟩

/-- Claim C3 as amended: with all four landmarks found and at least one
resolved landmark carrying a PRESENT confidence value below the 0.3 gate,
analyzePosture returns score 0, the message Move closer or improve
lighting, and the warning severity, computing no geometric feature.  An
absent confidence does not fail the gate (the JavaScript comparison with
undefined is false), which is the one change the counterexample forces. -/
theorem low_confidence_gate (kps : List Keypoint) (ls rs lh rh : Keypoint)
    (h1 : findKp kps "left_shoulder" = some ls) (h2 : findKp kps "right_shoulder" = some rs)
    (h3 : findKp kps "left_hip" = some lh) (h4 : findKp kps "right_hip" = some rh)
    (hlow : (∃ c, ls.score = some c ∧ c < minConfidence) ∨
      (∃ c, rs.score = some c ∧ c < minConfidence) ∨
      (∃ c, lh.score = some c ∧ c < minConfidence) ∨
      (∃ c, rh.score = some c ∧ c < minConfidence)) :
    analyzePosture kps = ⟨JSVal.fin 0, "Move closer or improve lighting", Color.warning⟩ := by
  apply analyzePosture_lowconf_eq kps ls rs lh rh h1 h2 h3 h4
  rcases hlow with ⟨c, hc, hlt⟩ | ⟨c, hc, hlt⟩ | ⟨c, hc, hlt⟩ | ⟨c, hc, hlt⟩
  · exact Or.inl (by rw [hc]; exact hlt)
  · exact Or.inr (Or.inl (by rw [hc]; exact hlt))
  · exact Or.inr (Or.inr (Or.inl (by rw [hc]; exact hlt)))
  · exact Or.inr (Or.inr (Or.inr (by rw [hc]; exact hlt)))

def lowConfLS : Keypoint := ⟨"left_shoulder", 0, 0, some 0.1⟩

def lowConfRS : Keypoint := ⟨"right_shoulder", 100, 0, some 0.9⟩

def lowConfLH : Keypoint := ⟨"left_hip", 0, 100, some 0.9⟩

def lowConfRH : Keypoint := ⟨"right_hip", 100, 100, some 0.9⟩

def lowConfList : List Keypoint := [lowConfLS, lowConfRS, lowConfLH, lowConfRH]

/-- Witness for the amended claim C3: a present confidence of 0.1 on the
left shoulder fails the gate and produces the low-confidence warning. -/
theorem low_confidence_gate_witness :
    analyzePosture lowConfList = ⟨JSVal.fin 0, "Move closer or improve lighting", Color.warning⟩ := by
  apply low_confidence_gate lowConfList lowConfLS lowConfRS lowConfLH lowConfRH
  · simp [lowConfList, findKp_cons, findKp_nil, lowConfLS, lowConfRS, lowConfLH, lowConfRH]
  · simp [lowConfList, findKp_cons, findKp_nil, lowConfLS, lowConfRS, lowConfLH, lowConfRH]
  · simp [lowConfList, findKp_cons, findKp_nil, lowConfLS, lowConfRS, lowConfLH, lowConfRH]
  · simp [lowConfList, findKp_cons, findKp_nil, lowConfLS, lowConfRS, lowConfLH, lowConfRH]
  · exact Or.inl ⟨0.1, by simp [lowConfLS], by norm_num [minConfidence]⟩

lemma atan2_zero_pos {x : ℝ} (h : 0 < x) : atan2 0 x = 0 := by
  simp [atan2, h, Real.arctan_zero]

lemma atan2_zero_neg {x : ℝ} (h : x < 0) : atan2 0 x = Real.pi := by
  simp [atan2, h, h.not_lt, Real.arctan_zero]

/-- Claim C8: calculateAngle always returns a value in the closed interval
from 0 to 180 degrees (any raw difference above 180 degrees is reflected as
360 minus the value); a right angle with vertex at the origin, the first
point at (1,0) and the third at (0,1) yields exactly 90, and collinear
points with the vertex strictly between the outer points yield exactly
180. -/
theorem calculateAngle_range_and_examples :
    (∀ p1 p2 p3 : Pt, 0 ≤ calculateAngle p1 p2 p3 ∧ calculateAngle p1 p2 p3 ≤ 180) ∧
    calculateAngle ⟨1, 0⟩ ⟨0, 0⟩ ⟨0, 1⟩ = 90 ∧
    calculateAngle ⟨-1, 0⟩ ⟨0, 0⟩ ⟨1, 0⟩ = 180 := by
  refine ⟨?_, ?_, ?_⟩
  · intro p1 p2 p3
    unfold calculateAngle
    obtain ⟨ha1, ha2⟩ := atan2_bounds (p3.y - p2.y) (p3.x - p2.x)
    obtain ⟨hb1, hb2⟩ := atan2_bounds (p1.y - p2.y) (p1.x - p2.x)
    have hpi := Real.pi_pos
    set a := atan2 (p3.y - p2.y) (p3.x - p2.x) with hadef
    set b := atan2 (p1.y - p2.y) (p1.x - p2.x) with hbdef
    have hd : |a - b| < 2 * Real.pi := abs_sub_lt_iff.mpr ⟨by linarith, by linarith⟩
    have habs : |(a - b) * 180 / Real.pi| < 360 := by
      rw [abs_div, abs_of_pos hpi, div_lt_iff hpi, abs_mul,
        abs_of_pos (show (0 : ℝ) < 180 by norm_num)]
      nlinarith
    have hnn : 0 ≤ |(a - b) * 180 / Real.pi| := abs_nonneg _
    dsimp only
    split_ifs with h
    · constructor <;> linarith
    · constructor <;> linarith
  · unfold calculateAngle
    dsimp only
    norm_num
    rw [atan2_pos_left one_pos, atan2_zero_pos one_pos]
    rw [show (Real.pi / 2 - 0) * 180 / Real.pi = 90 by
      field_simp
      ring]
    norm_num
  · unfold calculateAngle
    dsimp only
    norm_num
    rw [atan2_zero_pos one_pos, atan2_zero_neg (show (-1 : ℝ) < 0 by norm_num)]
    rw [show (0 - Real.pi) * 180 / Real.pi = -180 by
      field_simp
      ring]
    norm_num

/-- Claim C4: on every validated input the classification follows the
ordered first-match rules of the source: a shoulder tilt above 15 gives the
critical Straighten your shoulders result regardless of the aggregate
score; otherwise a hip tilt above 15 gives the warning Adjust your sitting
posture; otherwise a score above 80 gives the OK Good posture detected;
otherwise a score above 60 gives the warning Minor adjustments needed;
otherwise the critical Poor posture result. -/
theorem classifier_ordered_rules (kps : List Keypoint) (ls rs lh rh : Keypoint)
    (h1 : findKp kps "left_shoulder" = some ls) (h2 : findKp kps "right_shoulder" = some rs)
    (h3 : findKp kps "left_hip" = some lh) (h4 : findKp kps "right_hip" = some rh)
    (hc : ¬(confBelow ls.score ∨ confBelow rs.score ∨ confBelow lh.score ∨ confBelow rh.score)) :
    (jgt (tiltOf ls rs) 15 →
      analyzePosture kps = ⟨jround (scoreOf (tiltOf ls rs) (tiltOf lh rh) (spineAngleOf ls rs lh rh)),
        "Straighten your shoulders", Color.destructive⟩) ∧
    (¬ jgt (tiltOf ls rs) 15 → jgt (tiltOf lh rh) 15 →
      analyzePosture kps = ⟨jround (scoreOf (tiltOf ls rs) (tiltOf lh rh) (spineAngleOf ls rs lh rh)),
        "Adjust your sitting posture", Color.warning⟩) ∧
    (¬ jgt (tiltOf ls rs) 15 → ¬ jgt (tiltOf lh rh) 15 →
      jgt (scoreOf (tiltOf ls rs) (tiltOf lh rh) (spineAngleOf ls rs lh rh)) 80 →
      analyzePosture kps = ⟨jround (scoreOf (tiltOf ls rs) (tiltOf lh rh) (spineAngleOf ls rs lh rh)),
        "Good posture detected!", Color.success⟩) ∧
    (¬ jgt (tiltOf ls rs) 15 → ¬ jgt (tiltOf lh rh) 15 →
      ¬ jgt (scoreOf (tiltOf ls rs) (tiltOf lh rh) (spineAngleOf ls rs lh rh)) 80 →
      jgt (scoreOf (tiltOf ls rs) (tiltOf lh rh) (spineAngleOf ls rs lh rh)) 60 →
      analyzePosture kps = ⟨jround (scoreOf (tiltOf ls rs) (tiltOf lh rh) (spineAngleOf ls rs lh rh)),
        "Minor adjustments needed", Color.warning⟩) ∧
    (¬ jgt (tiltOf ls rs) 15 → ¬ jgt (tiltOf lh rh) 15 →
      ¬ jgt (scoreOf (tiltOf ls rs) (tiltOf lh rh) (spineAngleOf ls rs lh rh)) 80 →
      ¬ jgt (scoreOf (tiltOf ls rs) (tiltOf lh rh) (spineAngleOf ls rs lh rh)) 60 →
      analyzePosture kps = ⟨jround (scoreOf (tiltOf ls rs) (tiltOf lh rh) (spineAngleOf ls rs lh rh)),
        "Poor posture - sit up straight", Color.destructive⟩) := by
  rw [analyzePosture_validated_eq kps ls rs lh rh h1 h2 h3 h4 hc]
  unfold analyzeValidated classify
  refine ⟨?_, ?_, ?_, ?_, ?_⟩
  · intro ha
    rw [if_pos ha]
  · intro ha hb
    rw [if_neg ha, if_pos hb]
  · intro ha hb hc3
    rw [if_neg ha, if_neg hb, if_pos hc3]
  · intro ha hb hc3 hd
    rw [if_neg ha, if_neg hb, if_neg hc3, if_pos hd]
  · intro ha hb hc3 hd
    rw [if_neg ha, if_neg hb, if_neg hc3, if_neg hd]

def tiltexLS : Keypoint := ⟨"left_shoulder", 0, 0, some 0.9⟩

def tiltexRS : Keypoint := ⟨"right_shoulder", 100, 20, some 0.9⟩

def tiltexLH : Keypoint := ⟨"left_hip", 0, 100, some 0.9⟩

def tiltexRH : Keypoint := ⟨"right_hip", 100, 100, some 0.9⟩

def tiltexList : List Keypoint := [tiltexLS, tiltexRS, tiltexLH, tiltexRH]

/-- Witness for claim C4: the spec example with the right shoulder 20 below
the left over a width of 100 (tilt 20, above the 15 cutoff) fires the first
rule: critical severity, Straighten your shoulders, and the aggregate score
60 is kept. -/
theorem classifier_ordered_rules_witness :
    analyzePosture tiltexList = ⟨JSVal.fin 60, "Straighten your shoulders", Color.destructive⟩ := by
  have e1 : findKp tiltexList "left_shoulder" = some tiltexLS := by
    simp [tiltexList, findKp_cons, findKp_nil, tiltexLS, tiltexRS, tiltexLH, tiltexRH]
  have e2 : findKp tiltexList "right_shoulder" = some tiltexRS := by
    simp [tiltexList, findKp_cons, findKp_nil, tiltexLS, tiltexRS, tiltexLH, tiltexRH]
  have e3 : findKp tiltexList "left_hip" = some tiltexLH := by
    simp [tiltexList, findKp_cons, findKp_nil, tiltexLS, tiltexRS, tiltexLH, tiltexRH]
  have e4 : findKp tiltexList "right_hip" = some tiltexRH := by
    simp [tiltexList, findKp_cons, findKp_nil, tiltexLS, tiltexRS, tiltexLH, tiltexRH]
  have hc : ¬(confBelow tiltexLS.score ∨ confBelow tiltexRS.score ∨
      confBelow tiltexLH.score ∨ confBelow tiltexRH.score) := by
    norm_num [confBelow, minConfidence, tiltexLS, tiltexRS, tiltexLH, tiltexRH]
  have ht1 : tiltOf tiltexLS tiltexRS = JSVal.fin 20 := by
    rw [tiltOf_fin (by norm_num [tiltexLS, tiltexRS])]
    norm_num [tiltexLS, tiltexRS]
  have ht2 : tiltOf tiltexLH tiltexRH = JSVal.fin 0 := by
    rw [tiltOf_fin (by norm_num [tiltexLH, tiltexRH])]
    norm_num [tiltexLH, tiltexRH]
  have hsp : spineAngleOf tiltexLS tiltexRS tiltexLH tiltexRH = 0 :=
    spineAngleOf_vertical tiltexLS tiltexRS tiltexLH tiltexRH
      (by norm_num [tiltexLS, tiltexRS, tiltexLH, tiltexRH])
      (by norm_num [tiltexLS, tiltexRS, tiltexLH, tiltexRH])
  have hrule := (classifier_ordered_rules tiltexList tiltexLS tiltexRS tiltexLH tiltexRH
    e1 e2 e3 e4 hc).1 (by rw [ht1]; norm_num [jgt])
  rw [hrule, ht1, ht2, hsp, scoreOf_fin_fin]
  norm_num [scoreAgg, min_def, max_def, jround]

/-- Claim C5: on every validated input with nonzero shoulder and hip
widths, the returned score is exactly the spec formula: the clamp to 0..100
of 100 minus twice the shoulder tilt minus twice the hip tilt minus half
the spine angle, rounded half-up to an integer, with the tilts and spine
angle given by the spec formulas (specTilt, specSpineAngle written from the
spec text). -/
theorem score_formula_spec (kps : List Keypoint) (ls rs lh rh : Keypoint)
    (h1 : findKp kps "left_shoulder" = some ls) (h2 : findKp kps "right_shoulder" = some rs)
    (h3 : findKp kps "left_hip" = some lh) (h4 : findKp kps "right_hip" = some rh)
    (hc : ¬(confBelow ls.score ∨ confBelow rs.score ∨ confBelow lh.score ∨ confBelow rh.score))
    (hw1 : ls.x ≠ rs.x) (hw2 : lh.x ≠ rh.x) :
    (analyzePosture kps).score = JSVal.fin ((round (specScoreVal ls rs lh rh) : ℤ) : ℝ) := by
  rw [analyzePosture_validated_eq kps ls rs lh rh h1 h2 h3 h4 hc]
  unfold analyzeValidated
  rw [tiltOf_fin hw1, tiltOf_fin hw2, scoreOf_fin_fin, classify_score_eq]
  have hagg : scoreAgg (|ls.y - rs.y| / |ls.x - rs.x| * 100)
      (|lh.y - rh.y| / |lh.x - rh.x| * 100) (spineAngleOf ls rs lh rh) =
      specScoreVal ls rs lh rh := by
    unfold scoreAgg specScoreVal specClamp specTilt specSpineAngle spineAngleOf
    dsimp only
  rw [hagg]
  rfl

def formLS : Keypoint := ⟨"left_shoulder", 0, 0, some 0.9⟩

def formRS : Keypoint := ⟨"right_shoulder", 80, 8, some 0.9⟩

def formLH : Keypoint := ⟨"left_hip", 0, 100, some 0.9⟩

def formRH : Keypoint := ⟨"right_hip", 80, 100, some 0.9⟩

def formList : List Keypoint := [formLS, formRS, formLH, formRH]

/-- Witness for claim C5: shoulders tilted 8 over a width of 80 (tilt 10),
level hips and a vertical spine give the spec score 80, and analyzePosture
returns exactly that rounded value. -/
theorem score_formula_spec_witness :
    (analyzePosture formList).score = JSVal.fin ((round (specScoreVal formLS formRS formLH formRH) : ℤ) : ℝ) ∧
    specScoreVal formLS formRS formLH formRH = 80 ∧
    (analyzePosture formList).score = JSVal.fin 80 := by
  have e1 : findKp formList "left_shoulder" = some formLS := by
    simp [formList, findKp_cons, findKp_nil, formLS, formRS, formLH, formRH]
  have e2 : findKp formList "right_shoulder" = some formRS := by
    simp [formList, findKp_cons, findKp_nil, formLS, formRS, formLH, formRH]
  have e3 : findKp formList "left_hip" = some formLH := by
    simp [formList, findKp_cons, findKp_nil, formLS, formRS, formLH, formRH]
  have e4 : findKp formList "right_hip" = some formRH := by
    simp [formList, findKp_cons, findKp_nil, formLS, formRS, formLH, formRH]
  have hc : ¬(confBelow formLS.score ∨ confBelow formRS.score ∨
      confBelow formLH.score ∨ confBelow formRH.score) := by
    norm_num [confBelow, minConfidence, formLS, formRS, formLH, formRH]
  have hmain := score_formula_spec formList formLS formRS formLH formRH e1 e2 e3 e4 hc
    (by norm_num [formLS, formRS]) (by norm_num [formLH, formRH])
  have hsa : specSpineAngle formLS formRS formLH formRH = 0 := by
    unfold specSpineAngle
    norm_num [formLS, formRS, formLH, formRH]
    rw [atan2_pos_left (by norm_num : (0 : ℝ) < 96)]
    rw [show Real.pi / 2 * 180 / Real.pi = 90 by
      field_simp
      ring]
    norm_num
  have hval : specScoreVal formLS formRS formLH formRH = 80 := by
    unfold specScoreVal specClamp specTilt
    rw [hsa]
    norm_num [formLS, formRS, formLH, formRH, min_def, max_def]
  refine ⟨hmain, hval, ?_⟩
  rw [hmain, hval]
  norm_num

def coinLS : Keypoint := ⟨"left_shoulder", 50, 50, some 0.9⟩

def coinRS : Keypoint := ⟨"right_shoulder", 50, 50, some 0.9⟩

def coinLH : Keypoint := ⟨"left_hip", 50, 80, some 0.9⟩

def coinRH : Keypoint := ⟨"right_hip", 50, 80, some 0.9⟩

def coinList : List Keypoint := [coinLS, coinRS, coinLH, coinRH]

/-- Claim C1 evidence: with the two shoulder landmarks exactly coincident
(and likewise the hips), all above the confidence gate, the shoulder tilt
is the JavaScript division 0 by 0, which is NaN; the NaN propagates through
the score arithmetic, the clamp (Math.min and Math.max return NaN on NaN)
and Math.round, so the returned score is NaN, which is not an integer in
the range 0 to 100.  This contradicts the clamp invariant stated by the
spec and by the source comment Calculate score (0-100). -/
theorem coincident_landmarks_nan_score :
    analyzePosture coinList = ⟨JSVal.nan, "Poor posture - sit up straight", Color.destructive⟩ ∧
    ¬ scoreInRange (analyzePosture coinList).score := by
  have e1 : findKp coinList "left_shoulder" = some coinLS := by
    simp [coinList, findKp_cons, findKp_nil, coinLS, coinRS, coinLH, coinRH]
  have e2 : findKp coinList "right_shoulder" = some coinRS := by
    simp [coinList, findKp_cons, findKp_nil, coinLS, coinRS, coinLH, coinRH]
  have e3 : findKp coinList "left_hip" = some coinLH := by
    simp [coinList, findKp_cons, findKp_nil, coinLS, coinRS, coinLH, coinRH]
  have e4 : findKp coinList "right_hip" = some coinRH := by
    simp [coinList, findKp_cons, findKp_nil, coinLS, coinRS, coinLH, coinRH]
  have hc : ¬(confBelow coinLS.score ∨ confBelow coinRS.score ∨
      confBelow coinLH.score ∨ confBelow coinRH.score) := by
    norm_num [confBelow, minConfidence, coinLS, coinRS, coinLH, coinRH]
  have ht1 : tiltOf coinLS coinRS = JSVal.nan :=
    tiltOf_nan (by norm_num [coinLS, coinRS]) (by norm_num [coinLS, coinRS])
  have ht2 : tiltOf coinLH coinRH = JSVal.nan :=
    tiltOf_nan (by norm_num [coinLH, coinRH]) (by norm_num [coinLH, coinRH])
  have hres : analyzePosture coinList =
      ⟨JSVal.nan, "Poor posture - sit up straight", Color.destructive⟩ := by
    rw [analyzePosture_validated_eq coinList coinLS coinRS coinLH coinRH e1 e2 e3 e4 hc]
    unfold analyzeValidated
    rw [ht1, ht2, scoreOf_nan_any]
    norm_num [classify, jgt, jround]
  refine ⟨hres, ?_⟩
  rw [hres]
  simp [scoreInRange]

def degLS : Keypoint := ⟨"left_shoulder", 40, 40, some 0.8⟩

def degRS : Keypoint := ⟨"right_shoulder", 40, 40, some 0.8⟩

def degLH : Keypoint := ⟨"left_hip", 0, 90, some 0.8⟩

def degRH : Keypoint := ⟨"right_hip", 100, 90, some 0.8⟩

def degList : List Keypoint := [degLS, degRS, degLH, degRH]

/-- Claim C2 counterexample: an input with all four landmarks above the
gate and zero horizontal shoulder width (the shoulders fully coincident)
does NOT give score 0: the 0 by 0 division is NaN, so the returned score is
NaN and the message is the generic Poor posture text, not an explanatory
degenerate-geometry message. -/
theorem degenerate_coincident_not_zero_score :
    degLS.x = degRS.x ∧
    (analyzePosture degList).score = JSVal.nan ∧
    (analyzePosture degList).score ≠ JSVal.fin 0 := by
  have e1 : findKp degList "left_shoulder" = some degLS := by
    simp [degList, findKp_cons, findKp_nil, degLS, degRS, degLH, degRH]
  have e2 : findKp degList "right_shoulder" = some degRS := by
    simp [degList, findKp_cons, findKp_nil, degLS, degRS, degLH, degRH]
  have e3 : findKp degList "left_hip" = some degLH := by
    simp [degList, findKp_cons, findKp_nil, degLS, degRS, degLH, degRH]
  have e4 : findKp degList "right_hip" = some degRH := by
    simp [degList, findKp_cons, findKp_nil, degLS, degRS, degLH, degRH]
  have hc : ¬(confBelow degLS.score ∨ confBelow degRS.score ∨
      confBelow degLH.score ∨ confBelow degRH.score) := by
    norm_num [confBelow, minConfidence, degLS, degRS, degLH, degRH]
  have ht1 : tiltOf degLS degRS = JSVal.nan :=
    tiltOf_nan (by norm_num [degLS, degRS]) (by norm_num [degLS, degRS])
  have hres : (analyzePosture degList).score = JSVal.nan := by
    rw [analyzePosture_validated_eq degList degLS degRS degLH degRH e1 e2 e3 e4 hc]
    unfold analyzeValidated
    rw [ht1, scoreOf_nan_any]
    norm_num [classify, jgt, jround, ht1]
    split_ifs <;> rfl
  exact ⟨by norm_num [degLS, degRS], hres, by rw [hres]; simp⟩

/-- Claim C2 as amended: with all four landmarks above the gate, a zero
horizontal shoulder or hip width, and neither landmark pair fully
coincident, the divided-by-zero tilt is positive infinity, the score
collapses to 0 and the result carries an explanatory tilt message and
severity (critical Straighten your shoulders, or warning Adjust your
sitting posture).  Excluding the fully coincident pairs, whose NaN result
the counterexample exhibits, is the one change forced. -/
theorem degenerate_zero_width_score_zero (kps : List Keypoint) (ls rs lh rh : Keypoint)
    (h1 : findKp kps "left_shoulder" = some ls) (h2 : findKp kps "right_shoulder" = some rs)
    (h3 : findKp kps "left_hip" = some lh) (h4 : findKp kps "right_hip" = some rh)
    (hc : ¬(confBelow ls.score ∨ confBelow rs.score ∨ confBelow lh.score ∨ confBelow rh.score))
    (hdeg : ls.x = rs.x ∨ lh.x = rh.x)
    (hs : ls.x ≠ rs.x ∨ ls.y ≠ rs.y) (hh : lh.x ≠ rh.x ∨ lh.y ≠ rh.y) :
    (analyzePosture kps).score = JSVal.fin 0 ∧
    ((analyzePosture kps).message = "Straighten your shoulders" ∧
        (analyzePosture kps).color = Color.destructive ∨
      (analyzePosture kps).message = "Adjust your sitting posture" ∧
        (analyzePosture kps).color = Color.warning) := by
  rw [analyzePosture_validated_eq kps ls rs lh rh h1 h2 h3 h4 hc]
  unfold analyzeValidated
  by_cases hxs : ls.x = rs.x
  · have hys : ls.y ≠ rs.y := hs.resolve_left (fun h => h hxs)
    rw [tiltOf_inf hxs hys]
    by_cases hxh : lh.x = rh.x
    · have hyh : lh.y ≠ rh.y := hh.resolve_left (fun h => h hxh)
      rw [tiltOf_inf hxh hyh, scoreOf_inf_inf]
      rw [show classify JSVal.inf JSVal.inf (JSVal.fin 0) =
          ⟨JSVal.fin 0, "Straighten your shoulders", Color.destructive⟩ by
        unfold classify
        rw [if_pos (by trivial : jgt JSVal.inf 15)]
        simp [jround]]
      exact ⟨rfl, Or.inl ⟨rfl, rfl⟩⟩
    · rw [tiltOf_fin hxh, scoreOf_inf_fin]
      rw [show classify JSVal.inf (JSVal.fin (|lh.y - rh.y| / |lh.x - rh.x| * 100))
          (JSVal.fin 0) =
          ⟨JSVal.fin 0, "Straighten your shoulders", Color.destructive⟩ by
        unfold classify
        rw [if_pos (by trivial : jgt JSVal.inf 15)]
        simp [jround]]
      exact ⟨rfl, Or.inl ⟨rfl, rfl⟩⟩
  · have hxh : lh.x = rh.x := hdeg.resolve_left hxs
    have hyh : lh.y ≠ rh.y := hh.resolve_left (fun h => h hxh)
    rw [tiltOf_fin hxs, tiltOf_inf hxh hyh, scoreOf_fin_inf]
    by_cases h15 : jgt (JSVal.fin (|ls.y - rs.y| / |ls.x - rs.x| * 100)) 15
    · rw [show classify (JSVal.fin (|ls.y - rs.y| / |ls.x - rs.x| * 100)) JSVal.inf
          (JSVal.fin 0) =
          ⟨JSVal.fin 0, "Straighten your shoulders", Color.destructive⟩ by
        unfold classify
        rw [if_pos h15]
        simp [jround]]
      exact ⟨rfl, Or.inl ⟨rfl, rfl⟩⟩
    · rw [show classify (JSVal.fin (|ls.y - rs.y| / |ls.x - rs.x| * 100)) JSVal.inf
          (JSVal.fin 0) =
          ⟨JSVal.fin 0, "Adjust your sitting posture", Color.warning⟩ by
        unfold classify
        rw [if_neg h15, if_pos (by trivial : jgt JSVal.inf 15)]
        simp [jround]]
      exact ⟨rfl, Or.inr ⟨rfl, rfl⟩⟩

def zwLS : Keypoint := ⟨"left_shoulder", 10, 0, some 0.9⟩

def zwRS : Keypoint := ⟨"right_shoulder", 10, 50, some 0.9⟩

def zwLH : Keypoint := ⟨"left_hip", 0, 100, some 0.9⟩

def zwRH : Keypoint := ⟨"right_hip", 100, 100, some 0.9⟩

def zwList : List Keypoint := [zwLS, zwRS, zwLH, zwRH]

/-- Witness for the amended claim C2: shoulders at the same x but different
y (zero width, nonzero drop) give score 0 with the critical Straighten your
shoulders message. -/
theorem degenerate_zero_width_score_zero_witness :
    (analyzePosture zwList).score = JSVal.fin 0 ∧
    ((analyzePosture zwList).message = "Straighten your shoulders" ∧
        (analyzePosture zwList).color = Color.destructive ∨
      (analyzePosture zwList).message = "Adjust your sitting posture" ∧
        (analyzePosture zwList).color = Color.warning) := by
  apply degenerate_zero_width_score_zero zwList zwLS zwRS zwLH zwRH
  · simp [zwList, findKp_cons, findKp_nil, zwLS, zwRS, zwLH, zwRH]
  · simp [zwList, findKp_cons, findKp_nil, zwLS, zwRS, zwLH, zwRH]
  · simp [zwList, findKp_cons, findKp_nil, zwLS, zwRS, zwLH, zwRH]
  · simp [zwList, findKp_cons, findKp_nil, zwLS, zwRS, zwLH, zwRH]
  · norm_num [confBelow, minConfidence, zwLS, zwRS, zwLH, zwRH]
  · exact Or.inl (by norm_num [zwLS, zwRS])
  · exact Or.inr (by norm_num [zwLS, zwRS])
  · exact Or.inl (by norm_num [zwLH, zwRH])

lemma spineAngleOf_nonneg (ls rs lh rh : Keypoint) : 0 ≤ spineAngleOf ls rs lh rh := by
  unfold spineAngleOf
  dsimp only
  positivity

lemma shoulder_over_bound (ls rs lh rh : Keypoint) (h : jgt (tiltOf ls rs) 15) :
    ¬ jgt (jround (scoreOf (tiltOf ls rs) (tiltOf lh rh) (spineAngleOf ls rs lh rh))) 80 := by
  by_cases hxs : ls.x = rs.x
  · by_cases hys : ls.y = rs.y
    · rw [tiltOf_nan hxs hys] at h
      simp [jgt] at h
    · rw [tiltOf_inf hxs hys]
      by_cases hxh : lh.x = rh.x
      · by_cases hyh : lh.y = rh.y
        · rw [tiltOf_nan hxh hyh, scoreOf_any_nan]
          simp [jround, jgt]
        · rw [tiltOf_inf hxh hyh, scoreOf_inf_inf]
          norm_num [jround, jgt]
      · rw [tiltOf_fin hxh, scoreOf_inf_fin]
        norm_num [jround, jgt]
  · rw [tiltOf_fin hxs] at h ⊢
    have hs15 : (15 : ℝ) < |ls.y - rs.y| / |ls.x - rs.x| * 100 := h
    by_cases hxh : lh.x = rh.x
    · by_cases hyh : lh.y = rh.y
      · rw [tiltOf_nan hxh hyh, scoreOf_any_nan]
        simp [jround, jgt]
      · rw [tiltOf_inf hxh hyh, scoreOf_fin_inf]
        norm_num [jround, jgt]
    · rw [tiltOf_fin hxh, scoreOf_fin_fin]
      have hh0 : 0 ≤ |lh.y - rh.y| / |lh.x - rh.x| * 100 := tiltOf_fin_nonneg
      have ha0 : 0 ≤ spineAngleOf ls rs lh rh := spineAngleOf_nonneg ls rs lh rh
      have hagg : scoreAgg (|ls.y - rs.y| / |ls.x - rs.x| * 100)
          (|lh.y - rh.y| / |lh.x - rh.x| * 100) (spineAngleOf ls rs lh rh) < 70 := by
        unfold scoreAgg
        exact max_lt (by norm_num)
          (lt_of_le_of_lt (min_le_right _ _) (by linarith))
      have hr : round (scoreAgg (|ls.y - rs.y| / |ls.x - rs.x| * 100)
          (|lh.y - rh.y| / |lh.x - rh.x| * 100) (spineAngleOf ls rs lh rh)) ≤ 70 := by
        rw [round_eq]
        have hfl : (⌊scoreAgg (|ls.y - rs.y| / |ls.x - rs.x| * 100)
            (|lh.y - rh.y| / |lh.x - rh.x| * 100) (spineAngleOf ls rs lh rh) + 1 / 2⌋ : ℤ) < 71 :=
          Int.floor_lt.mpr (by push_cast; linarith)
        omega
      intro hcon
      have h80 : (80 : ℝ) < ((round (scoreAgg (|ls.y - rs.y| / |ls.x - rs.x| * 100)
          (|lh.y - rh.y| / |lh.x - rh.x| * 100) (spineAngleOf ls rs lh rh)) : ℤ) : ℝ) := hcon
      have : (80 : ℤ) < round (scoreAgg (|ls.y - rs.y| / |ls.x - rs.x| * 100)
          (|lh.y - rh.y| / |lh.x - rh.x| * 100) (spineAngleOf ls rs lh rh)) := by
        exact_mod_cast h80
      omega

/-- Claim C10 counterexample, as the negation of the claimed possibility:
no input at all can yield the Straighten your shoulders message together
with a score above 80.  When the shoulder-tilt override fires, the tilt
penalty alone already pulls the aggregate below 70 (and the degenerate
infinity and NaN tilt cases yield score 0 or NaN), so the claimed
CRITICAL-with-score-above-80 result is impossible. -/
theorem shoulder_override_score_never_above_80 :
    ¬ ∃ kps : List Keypoint, (analyzePosture kps).message = "Straighten your shoulders" ∧
      jgt (analyzePosture kps).score 80 := by
  rintro ⟨kps, hmsg, hgt⟩
  by_cases hm : findKp kps "left_shoulder" = none ∨ findKp kps "right_shoulder" = none ∨
      findKp kps "left_hip" = none ∨ findKp kps "right_hip" = none
  · rw [analyzePosture_missing_eq kps hm] at hmsg
    simp at hmsg
  · push_neg at hm
    obtain ⟨hm1, hm2, hm3, hm4⟩ := hm
    obtain ⟨ls, e1⟩ := Option.ne_none_iff_exists'.mp hm1
    obtain ⟨rs, e2⟩ := Option.ne_none_iff_exists'.mp hm2
    obtain ⟨lh, e3⟩ := Option.ne_none_iff_exists'.mp hm3
    obtain ⟨rh, e4⟩ := Option.ne_none_iff_exists'.mp hm4
    by_cases hcf : confBelow ls.score ∨ confBelow rs.score ∨
        confBelow lh.score ∨ confBelow rh.score
    · rw [analyzePosture_lowconf_eq kps ls rs lh rh e1 e2 e3 e4 hcf] at hmsg
      simp at hmsg
    · rw [analyzePosture_validated_eq kps ls rs lh rh e1 e2 e3 e4 hcf] at hmsg hgt
      unfold analyzeValidated classify at hmsg hgt
      split_ifs at hmsg hgt with hA hB hC hD
      · exact shoulder_over_bound ls rs lh rh hA hgt
      · simp at hmsg
      · simp at hmsg
      · simp at hmsg
      · simp at hmsg

def overLS : Keypoint := ⟨"left_shoulder", 0, 0, some 0.9⟩

def overRS : Keypoint := ⟨"right_shoulder", 100, 16, some 0.9⟩

def overLH : Keypoint := ⟨"left_hip", 0, 100, some 0.9⟩

def overRH : Keypoint := ⟨"right_hip", 100, 100, some 0.9⟩

def overList : List Keypoint := [overLS, overRS, overLH, overRH]

/-- Claim C10 as amended: when a tilt-override rule fires on a validated
input, the returned score field is still the rounded clamped aggregate
score, not forced to 0 — such a critical Straighten your shoulders result
can carry a nonzero score (68 in the example below) — but it can never
carry a score above 80, since a shoulder tilt above 15 already costs more
than 30 points. -/
theorem override_score_not_forced_zero :
    (∀ (kps : List Keypoint) (ls rs lh rh : Keypoint),
      findKp kps "left_shoulder" = some ls → findKp kps "right_shoulder" = some rs →
      findKp kps "left_hip" = some lh → findKp kps "right_hip" = some rh →
      ¬(confBelow ls.score ∨ confBelow rs.score ∨ confBelow lh.score ∨ confBelow rh.score) →
      (jgt (tiltOf ls rs) 15 ∨ jgt (tiltOf lh rh) 15) →
      (analyzePosture kps).score =
        jround (scoreOf (tiltOf ls rs) (tiltOf lh rh) (spineAngleOf ls rs lh rh))) ∧
    analyzePosture overList = ⟨JSVal.fin 68, "Straighten your shoulders", Color.destructive⟩ := by
  constructor
  · intro kps ls rs lh rh h1 h2 h3 h4 hc _hov
    rw [analyzePosture_validated_eq kps ls rs lh rh h1 h2 h3 h4 hc]
    unfold analyzeValidated
    exact classify_score_eq _ _ _
  · have e1 : findKp overList "left_shoulder" = some overLS := by
      simp [overList, findKp_cons, findKp_nil, overLS, overRS, overLH, overRH]
    have e2 : findKp overList "right_shoulder" = some overRS := by
      simp [overList, findKp_cons, findKp_nil, overLS, overRS, overLH, overRH]
    have e3 : findKp overList "left_hip" = some overLH := by
      simp [overList, findKp_cons, findKp_nil, overLS, overRS, overLH, overRH]
    have e4 : findKp overList "right_hip" = some overRH := by
      simp [overList, findKp_cons, findKp_nil, overLS, overRS, overLH, overRH]
    have hc : ¬(confBelow overLS.score ∨ confBelow overRS.score ∨
        confBelow overLH.score ∨ confBelow overRH.score) := by
      norm_num [confBelow, minConfidence, overLS, overRS, overLH, overRH]
    have ht1 : tiltOf overLS overRS = JSVal.fin 16 := by
      rw [tiltOf_fin (by norm_num [overLS, overRS])]
      norm_num [overLS, overRS]
    have ht2 : tiltOf overLH overRH = JSVal.fin 0 := by
      rw [tiltOf_fin (by norm_num [overLH, overRH])]
      norm_num [overLH, overRH]
    have hsp : spineAngleOf overLS overRS overLH overRH = 0 :=
      spineAngleOf_vertical overLS overRS overLH overRH
        (by norm_num [overLS, overRS, overLH, overRH])
        (by norm_num [overLS, overRS, overLH, overRH])
    rw [analyzePosture_validated_eq overList overLS overRS overLH overRH e1 e2 e3 e4 hc]
    unfold analyzeValidated
    rw [ht1, ht2, hsp, scoreOf_fin_fin]
    unfold classify
    rw [if_pos (by norm_num [jgt] : jgt (JSVal.fin 16) 15)]
    norm_num [scoreAgg, min_def, max_def, jround]

/-- Witness for the amended claim C10: on the concrete over-tilted input the
score field equals the rounded clamped aggregate of the computed
features. -/
theorem override_score_not_forced_zero_witness :
    (analyzePosture overList).score =
      jround (scoreOf (tiltOf overLS overRS) (tiltOf overLH overRH)
        (spineAngleOf overLS overRS overLH overRH)) := by
  apply override_score_not_forced_zero.1 overList overLS overRS overLH overRH
  · simp [overList, findKp_cons, findKp_nil, overLS, overRS, overLH, overRH]
  · simp [overList, findKp_cons, findKp_nil, overLS, overRS, overLH, overRH]
  · simp [overList, findKp_cons, findKp_nil, overLS, overRS, overLH, overRH]
  · simp [overList, findKp_cons, findKp_nil, overLS, overRS, overLH, overRH]
  · norm_num [confBelow, minConfidence, overLS, overRS, overLH, overRH]
  · refine Or.inl ?_
    rw [tiltOf_fin (by norm_num [overLS, overRS])]
    norm_num [jgt, overLS, overRS]

end
